import Mathlib

/-!
Shallow embedding of the admission-control core of `src/middleware/security.py`
(module `middleware.security`): the `RateLimiter` class (sliding-window log and
IP block set), the `APIKeyValidator` class, the `SecurityMiddleware` policy
tables and `validate_request` pipeline, and the status mapping of the
`security_check` boundary adapter.

Modelling conventions:
- Python `time.time()` values and the window arithmetic on them are modelled
  over `ℤ` (seconds since epoch; none of the verified properties depends on
  sub-second granularity); integer limits, window seconds and payload sizes
  are `ℤ`.
- The mutable `RateLimiter` object is a `RateLimiter` structure threaded
  explicitly; methods take and return the state.
- `dict`/`defaultdict` lookups become total functions returning `Option` or a
  default value.
- A raised Python exception is `Except.error ()`; because the mutations of the
  rate-limiter happen before the raise and persist, `validate_request` returns
  the state alongside the `Except`.
-/

namespace SecurityPy

/-- State of the Python `RateLimiter` object: `self.requests` is a
`defaultdict(deque)` keyed by the string `f"{client_ip}:{endpoint}"` holding
timestamps, and `self.blocked_ips` is a `set` of IP strings (modelled by its
membership function). -/
structure RateLimiter where
  requests : String → List ℤ
  blocked_ips : String → Bool

/-- A freshly constructed `RateLimiter()`: empty request log, empty block set. -/
def RateLimiter.init : RateLimiter := ⟨fun _ => [], fun _ => false⟩

/-- The dictionary key `f"{client_ip}:{endpoint}"` used by `is_allowed`. -/
def mkKey (client_ip endpoint : String) : String := client_ip ++ ":" ++ endpoint

/-- The write-back of the mutated deque into `self.requests[key]`. -/
def RateLimiter.updateRequests (rl : RateLimiter) (key : String) (l : List ℤ) : RateLimiter :=
  { rl with requests := fun k => if k = key then l else rl.requests k }

/-- `RateLimiter.is_allowed`: evict the leading timestamps with
`t < now - window_seconds` (the Python `while ...: popleft()` loop, which stops
at the first timestamp not older than the cutoff; the method's `key` and
cleaned-deque locals are inlined here), then deny without recording if the
remaining count is at least `limit`, else append `now` and admit.  The evicted
deque is stored in both branches, as the in-place `popleft` mutations persist. -/
def RateLimiter.is_allowed (rl : RateLimiter) (client_ip endpoint : String)
    (limit : ℤ) (window_seconds : ℤ) (now : ℤ) : Bool × RateLimiter :=
  if limit ≤ (((rl.requests (mkKey client_ip endpoint)).dropWhile
      (fun t => decide (t < now - (window_seconds : ℤ)))).length : ℤ) then
    (false, rl.updateRequests (mkKey client_ip endpoint)
      ((rl.requests (mkKey client_ip endpoint)).dropWhile
        (fun t => decide (t < now - (window_seconds : ℤ)))))
  else
    (true, rl.updateRequests (mkKey client_ip endpoint)
      (((rl.requests (mkKey client_ip endpoint)).dropWhile
        (fun t => decide (t < now - (window_seconds : ℤ)))) ++ [now]))

/-- `RateLimiter.block_ip`: `self.blocked_ips.add(ip)`.  The `duration_minutes`
argument is only logged by the source; it does not enter the state. -/
def RateLimiter.block_ip (rl : RateLimiter) (ip : String) (duration_minutes : ℤ) : RateLimiter :=
  let _ := duration_minutes
  { rl with blocked_ips := fun k => if k = ip then true else rl.blocked_ips k }

/-- `RateLimiter.is_ip_blocked`: `ip in self.blocked_ips`. -/
def RateLimiter.is_ip_blocked (rl : RateLimiter) (ip : String) : Bool :=
  rl.blocked_ips ip

/-- The value side of one entry of the `valid_keys` dict: a `permissions` list
and a per-route `rate_limits` table (route, limit, window); the latter is not
consulted by `validate_request`. -/
structure KeyInfo where
  permissions : List String
  rate_limits : List (String × ℤ × ℤ)
deriving DecidableEq

/-- `APIKeyValidator.validate_key`: exact dict lookup, returning
`(True, info)` on a hit and `(False, None)` otherwise. -/
def validate_key (valid_keys : String → Option KeyInfo) (api_key : String) :
    Bool × Option KeyInfo :=
  match valid_keys api_key with
  | some info => (true, some info)
  | none => (false, none)

/-- `APIKeyValidator.has_permission`: validate the key, then test membership of
`permission` in the key's `permissions` list; `False` for invalid keys. -/
def has_permission (valid_keys : String → Option KeyInfo) (api_key permission : String) : Bool :=
  match validate_key valid_keys api_key with
  | (true, some info) => decide (permission ∈ info.permissions)
  | _ => false

/-- `SecurityMiddleware._load_api_keys`: the static credential table. -/
def load_api_keys : String → Option KeyInfo := fun k =>
  if k = "dev-api-key-123" then
    some ⟨["events:create", "events:batch"], [("/events", 100, 60), ("/events/batch", 10, 60)]⟩
  else if k = "monitoring-key-456" then
    some ⟨["health:read", "metrics:read"], [("/health", 1000, 60)]⟩
  else none

/-- One entry of `policies["rate_limits"]`: `{limit, window}` plus the
informational `burst` field (absent for `/health`). -/
structure RateLimitConfig where
  limit : ℤ
  window : ℤ
  burst : Option ℤ
deriving DecidableEq

/-- `policies["rate_limits"].get(path)`. -/
def policy_rate_limits : String → Option RateLimitConfig := fun path =>
  if path = "/events" then some ⟨100, 60, some 20⟩
  else if path = "/events/batch" then some ⟨10, 60, some 5⟩
  else if path = "/health" then some ⟨1000, 60, none⟩
  else none

/-- `policies["auth_required"].get(path, False)`. -/
def policy_auth_required : String → Bool := fun path =>
  if path = "/events" then true
  else if path = "/events/batch" then true
  else if path = "/health" then false
  else false

/-- `policies["max_payload_size"].get(path)`. -/
def policy_max_payload_size : String → Option ℤ := fun path =>
  if path = "/events" then some (1024 * 1024)
  else if path = "/events/batch" then some (10 * 1024 * 1024)
  else none

/-- A digit character to its value, `none` for non-digits. -/
def digitVal (c : Char) : Option ℕ :=
  if '0' ≤ c ∧ c ≤ '9' then some (c.toNat - '0'.toNat) else none

/-- Accumulate a decimal digit string. -/
def digitsVal : List Char → ℕ → Option ℕ
  | [], acc => some acc
  | c :: cs, acc =>
    match digitVal c with
    | some d => digitsVal cs (10 * acc + d)
    | none => none

/-- Model of Python's built-in `int(s)` on header strings: an optional sign
followed by at least one decimal digit parses to that integer; anything else
raises `ValueError` (here: `none`).  Surrounding whitespace and digit
underscores, which CPython also accepts, are not modelled; no theorem below
instantiates them. -/
def python_int (s : String) : Option ℤ :=
  match s.data with
  | [] => none
  | '-' :: rest => if rest = [] then none else (digitsVal rest 0).map (fun n => -(n : ℤ))
  | '+' :: rest => if rest = [] then none else (digitsVal rest 0).map (fun n => (n : ℤ))
  | l => (digitsVal l 0).map (fun n => (n : ℤ))

/-- The inbound request descriptor consumed by `validate_request`:
`request.client.host`, `request.url.path`, `request.method`, and the three
headers it reads (`None` for an absent header). -/
structure Request where
  client_ip : String
  path : String
  method : String
  x_api_key : Option String
  authorization : Option String
  content_length : Option String

/-- Python `s.startswith(pre)`, on code points. -/
def pyStartsWith (s pre : String) : Bool := pre.data.isPrefixOf s.data

/-- Python `s[n:]`, on code points. -/
def pyDrop (s : String) (n : ℕ) : String := String.mk (s.data.drop n)

/-- Python `a or b` on two `headers.get` results: the first operand wins unless
it is falsy (`None` or the empty string). -/
def orHeader : Option String → Option String → Option String
  | some s, b => if s = "" then b else some s
  | none, b => b

/-- The authentication block of `validate_request` (it reads no rate-limiter
state): if the route requires auth, take `X-API-Key or Authorization`; a falsy
result denies with "API key required"; strip a leading `"Bearer "`; an unknown
key denies with "Invalid API key"; for `/events` and `/events/batch` the
route-specific permission must be held or the denial is "Insufficient
permissions".  Returns `some message` on denial, `none` when the block passes. -/
def auth_check (req : Request) : Option String :=
  if policy_auth_required req.path then
    match orHeader req.x_api_key req.authorization with
    | none => some "API key required"
    | some s =>
      if s = "" then some "API key required"
      else
        let api_key := if pyStartsWith s "Bearer " then pyDrop s 7 else s
        if (validate_key load_api_keys api_key).fst = false then some "Invalid API key"
        else
          if req.path = "/events" then
            if has_permission load_api_keys api_key "events:create" then none
            else some "Insufficient permissions"
          else if req.path = "/events/batch" then
            if has_permission load_api_keys api_key "events:batch" then none
            else some "Insufficient permissions"
          else none
  else none

/-- The payload-size block of `validate_request`: with a truthy content-length
header and a configured max size, `if max_size and int(content_length) > max_size`
denies with "Payload too large".  Python's `and` short-circuits on a falsy
`max_size` before `int` is evaluated; a non-numeric header therefore raises
(`Except.error ()`) exactly when a max size is configured and nonzero. -/
def size_check (req : Request) : Except Unit (Option String) :=
  match req.content_length with
  | none => Except.ok none
  | some cl =>
    if cl = "" then Except.ok none
    else
      match policy_max_payload_size req.path with
      | none => Except.ok none
      | some max_size =>
        if max_size = 0 then Except.ok none
        else
          match python_int cl with
          | none => Except.error ()
          | some n => Except.ok (if max_size < n then some "Payload too large" else none)

/-- The rate-limit step of `validate_request`: when the path has a configured
rate limit, run `is_allowed` with that limit and window; otherwise the step
passes with the state untouched. -/
def rate_step (st : RateLimiter) (req : Request) (now : ℤ) : Bool × RateLimiter :=
  match policy_rate_limits req.path with
  | some cfg => st.is_allowed req.client_ip req.path cfg.limit cfg.window now
  | none => (true, st)

/-- The auth and size blocks run in order after the rate-limit step, on the
state the rate-limit step produced; neither touches the rate limiter. -/
def post_rate (st : RateLimiter) (req : Request) : Except Unit (Bool × Option String) × RateLimiter :=
  match auth_check req with
  | some msg => (Except.ok (false, some msg), st)
  | none =>
    match size_check req with
    | Except.error e => (Except.error e, st)
    | Except.ok (some msg) => (Except.ok (false, some msg), st)
    | Except.ok none => (Except.ok (true, none), st)

/-- `SecurityMiddleware.validate_request`: (1) a blocked client IP is denied
"IP address is blocked"; (2) the rate-limit step; an exceeded limit calls
`block_ip(client_ip, 60)` and denies "Rate limit exceeded"; (3) authentication;
(4) payload size; (5) otherwise `(True, None)`.  The first component is the
Python return value (`Except.error ()` for a raised `ValueError`), the second
the rate-limiter state after the call. -/
def validate_request (st : RateLimiter) (req : Request) (now : ℤ) :
    Except Unit (Bool × Option String) × RateLimiter :=
  if st.is_ip_blocked req.client_ip then
    (Except.ok (false, some "IP address is blocked"), st)
  else
    if (rate_step st req now).fst then post_rate (rate_step st req now).snd req
    else
      (Except.ok (false, some "Rate limit exceeded"),
        ((rate_step st req now).snd).block_ip req.client_ip 60)

/-- ASCII lower-casing of one character, as `str.lower()` acts on the
pipeline's ASCII denial messages. -/
def lowerChar (c : Char) : Char :=
  if 'A' ≤ c ∧ c ≤ 'Z' then Char.ofNat (c.toNat + 32) else c

/-- `error_message.lower()` for the ASCII messages produced by the pipeline. -/
def lowerStr (s : String) : String := String.mk (s.data.map lowerChar)

/-- `needle in hay` on character lists: some suffix of `hay` starts with
`needle`. -/
def listContainsSub (needle : List Char) : List Char → Bool
  | [] => needle.isEmpty
  | c :: t => needle.isPrefixOf (c :: t) || listContainsSub needle t

/-- Python's `in` on strings. -/
def strContainsSub (needle hay : String) : Bool := listContainsSub needle.data hay.data

/-- The status chosen by `security_check` for a denial:
`429 if "rate limit" in error_message.lower() else 401`. -/
def http_status_for (error_message : String) : ℕ :=
  if strContainsSub "rate limit" (lowerStr error_message) then 429 else 401

/-- The `security_check` middleware around `validate_request`: on a denial it
answers with the mapped status (`.lower()` on a `None` message would raise, so
that case is `Except.error ()`); on admission it proceeds to `call_next`
(modelled as status `none`). -/
def security_check (st : RateLimiter) (req : Request) (now : ℤ) :
    Except Unit (Option ℕ) × RateLimiter :=
  let r := validate_request st req now
  match r.fst with
  | Except.error e => (Except.error e, r.snd)
  | Except.ok (true, _) => (Except.ok none, r.snd)
  | Except.ok (false, none) => (Except.error (), r.snd)
  | Except.ok (false, some m) => (Except.ok (some (http_status_for m)), r.snd)

/-! ### Helper lemmas -/

/-- On an ascending-sorted timestamp log, dropping the leading entries below a
cutoff removes exactly the entries below the cutoff. -/
lemma dropWhile_lt_eq_filter (c : ℤ) (l : List ℤ) (hs : l.Sorted (· ≤ ·)) :
    l.dropWhile (fun t => decide (t < c)) = l.filter (fun t => decide (c ≤ t)) := by
  induction l with
  | nil => rfl
  | cons a t ih =>
    rw [List.sorted_cons] at hs
    obtain ⟨hall, hst⟩ := hs
    rw [List.dropWhile_cons, List.filter_cons]
    by_cases hc : a < c
    · simp only [decide_eq_true hc, decide_eq_false (not_le.mpr hc), if_true,
        Bool.false_eq_true, if_false]
      exact ih hst
    · simp only [decide_eq_false hc, decide_eq_true (not_lt.mp hc),
        Bool.false_eq_true, if_false, if_true]
      have : t.filter (fun t => decide (c ≤ t)) = t :=
        List.filter_eq_self.mpr fun x hx =>
          decide_eq_true (le_trans (not_lt.mp hc) (hall x hx))
      rw [this]

/-- `dropWhile` empties a list all of whose entries satisfy the predicate. -/
lemma dropWhile_eq_nil_of_all {p : ℤ → Bool} (l : List ℤ) (h : ∀ t ∈ l, p t = true) :
    l.dropWhile p = [] := by
  induction l with
  | nil => rfl
  | cons a t ih =>
    rw [List.dropWhile_cons, if_pos (h a (List.mem_cons_self a t))]
    exact ih fun x hx => h x (List.mem_cons_of_mem a hx)

/-- Reading back the key just written. -/
lemma updateRequests_self (rl : RateLimiter) (key : String) (l : List ℤ) :
    (rl.updateRequests key l).requests key = l := by
  unfold RateLimiter.updateRequests
  simp

/-- Sorted-and-bounded logs are an invariant of `is_allowed` under
nondecreasing call times: if a log is ascending with all entries at most the
call time, it stays so after the call.  This discharges, at every reachable
state, the sortedness hypothesis under which the eviction loop removes exactly
the stale entries. -/
lemma is_allowed_preserves_sorted (st : RateLimiter) (ip ep : String)
    (limit window now : ℤ) (k : String)
    (hs : (st.requests k).Sorted (· ≤ ·))
    (hb : ∀ t ∈ st.requests k, t ≤ now) :
    ((st.is_allowed ip ep limit window now).snd.requests k).Sorted (· ≤ ·) ∧
    ∀ t ∈ (st.is_allowed ip ep limit window now).snd.requests k, t ≤ now := by
  have hsub : List.Sublist ((st.requests (mkKey ip ep)).dropWhile
      (fun t => decide (t < now - window))) (st.requests (mkKey ip ep)) :=
    (List.dropWhile_suffix _).sublist
  unfold RateLimiter.is_allowed
  by_cases hc : limit ≤ (((st.requests (mkKey ip ep)).dropWhile
      (fun t => decide (t < now - window))).length : ℤ)
  · rw [if_pos hc]
    dsimp only [RateLimiter.updateRequests]
    by_cases hk : k = mkKey ip ep
    · subst hk
      rw [if_pos rfl]
      exact ⟨hs.sublist hsub, fun t ht => hb t (hsub.subset ht)⟩
    · rw [if_neg hk]
      exact ⟨hs, hb⟩
  · rw [if_neg hc]
    dsimp only [RateLimiter.updateRequests]
    by_cases hk : k = mkKey ip ep
    · subst hk
      rw [if_pos rfl]
      constructor
      · refine List.pairwise_append.mpr ⟨hs.sublist hsub, by simp, ?_⟩
        intro a ha b hbmem
        simp only [List.mem_singleton] at hbmem
        subst hbmem
        exact hb a (hsub.subset ha)
      · intro t ht
        rcases List.mem_append.mp ht with h1 | h1
        · exact hb t (hsub.subset h1)
        · simp only [List.mem_singleton] at h1
          exact h1.le
    · rw [if_neg hk]
      exact ⟨hs, hb⟩

/-- Every configured rate limit is positive. -/
lemma policy_rate_limits_pos (p : String) (cfg : RateLimitConfig)
    (h : policy_rate_limits p = some cfg) : 0 < cfg.limit := by
  unfold policy_rate_limits at h
  split at h <;> [skip; split at h] <;> [skip; skip; split at h] <;>
    simp only [Option.some.injEq, reduceCtorEq] at h <;> subst h <;> decide

/-- The auth block passes or denies with one of its three messages. -/
lemma auth_check_cases (req : Request) :
    auth_check req = none ∨ auth_check req = some "API key required" ∨
    auth_check req = some "Invalid API key" ∨ auth_check req = some "Insufficient permissions" := by
  unfold auth_check
  repeat' split
  all_goals simp
  all_goals (repeat' split)
  all_goals simp
  all_goals assumption

/-- A size-block denial carries the payload message. -/
lemma size_check_cases (req : Request) (m : String)
    (h : size_check req = Except.ok (some m)) : m = "Payload too large" := by
  unfold size_check at h
  repeat' split at h
  all_goals simp_all

/-- The auth and size blocks never touch the rate-limiter state. -/
lemma post_rate_snd (st : RateLimiter) (req : Request) : (post_rate st req).snd = st := by
  unfold post_rate
  repeat' split
  all_goals rfl

/-- Every denial produced by `validate_request` carries one of the six
messages of the pipeline. -/
lemma validate_request_deny_msgs (st : RateLimiter) (req : Request) (now : ℤ) (m : String)
    (h : (validate_request st req now).fst = Except.ok (false, some m)) :
    m = "IP address is blocked" ∨ m = "Rate limit exceeded" ∨ m = "API key required" ∨
    m = "Invalid API key" ∨ m = "Insufficient permissions" ∨ m = "Payload too large" := by
  unfold validate_request at h
  split at h
  · simp at h
    tauto
  · split at h
    · unfold post_rate at h
      rcases auth_check_cases req with ha | ha | ha | ha <;> rw [ha] at h
      · rcases hsz : size_check req with e | r
        · rw [hsz] at h
          simp at h
        · rcases r with _ | msg
          · rw [hsz] at h
            simp at h
          · rw [hsz] at h
            simp at h
            have := size_check_cases req msg hsz
            subst this
            tauto
      all_goals (simp at h; tauto)
    · simp at h
      tauto

/-! ### Concrete states used by witnesses -/

/-- A limiter state with ten timestamps at time `0` recorded for
`("1.2.3.4", "/events/batch")` and no blocked IPs. -/
def exhaustedBatchState : RateLimiter :=
  { requests := fun k => if k = "1.2.3.4:/events/batch" then List.replicate 10 0 else [],
    blocked_ips := fun _ => false }

/-- A limiter state with an empty request log and `"1.2.3.4"` blocked. -/
def blockedState : RateLimiter :=
  { requests := fun _ => [], blocked_ips := fun k => decide (k = "1.2.3.4") }

/-! ### Claims -/

/-- Claim C1: a call to `is_allowed(identity, route, limit, window)` first
removes all recorded timestamps for the pair older than `now - window` (the
eviction loop removes an initial segment, which on the ascending logs produced
by monotone call times is all of them), then returns `false` recording nothing
further if at least `limit` timestamps remain, and otherwise appends `now` and
returns `true`. -/
theorem c1_is_allowed_evicts_checks_appends
    (st : RateLimiter) (identity route : String) (limit window : ℤ) (now : ℤ)
    (hsorted : (st.requests (mkKey identity route)).Sorted (· ≤ ·)) :
    st.is_allowed identity route limit window now =
      if limit ≤ (((st.requests (mkKey identity route)).filter
            (fun t => decide (now - (window : ℤ) ≤ t))).length : ℤ) then
        (false, st.updateRequests (mkKey identity route)
          ((st.requests (mkKey identity route)).filter
            (fun t => decide (now - (window : ℤ) ≤ t))))
      else
        (true, st.updateRequests (mkKey identity route)
          (((st.requests (mkKey identity route)).filter
            (fun t => decide (now - (window : ℤ) ≤ t))) ++ [now])) := by
  unfold RateLimiter.is_allowed
  rw [dropWhile_lt_eq_filter (now - (window : ℤ)) _ hsorted]

/-- Claim C1 witness: on a fresh limiter the first call admits and records the
call time. -/
theorem c1_witness :
    (RateLimiter.init.is_allowed "1.2.3.4" "/events" 2 10 20).fst = true ∧
    (RateLimiter.init.is_allowed "1.2.3.4" "/events" 2 10 20).snd.requests
      (mkKey "1.2.3.4" "/events") = [20] := by
  have h := c1_is_allowed_evicts_checks_appends RateLimiter.init "1.2.3.4" "/events" 2 10 20
    (by simp [RateLimiter.init])
  rw [h]
  norm_num [RateLimiter.init, RateLimiter.updateRequests]

/-- Claim C2: whenever `is_allowed` admits (returns `true` and records one more
entry), the count of recorded timestamps newer than `now - window` for the pair
is at most `limit`. -/
theorem c2_hard_ceiling
    (st : RateLimiter) (identity route : String) (limit window : ℤ) (now : ℤ)
    (h : (st.is_allowed identity route limit window now).fst = true) :
    (((st.is_allowed identity route limit window now).snd.requests (mkKey identity route)).countP
      (fun t => decide (now - (window : ℤ) < t)) : ℤ) ≤ limit := by
  unfold RateLimiter.is_allowed at h ⊢
  by_cases hc : limit ≤ (((st.requests (mkKey identity route)).dropWhile
      (fun t => decide (t < now - (window : ℤ)))).length : ℤ)
  · rw [if_pos hc] at h
    simp at h
  · rw [if_neg hc] at h ⊢
    dsimp only
    rw [updateRequests_self]
    have hcount := List.countP_le_length (p := fun t => decide (now - (window : ℤ) < t))
      (l := ((st.requests (mkKey identity route)).dropWhile
        (fun t => decide (t < now - (window : ℤ)))) ++ [now])
    simp only [List.length_append, List.length_singleton] at hcount
    omega

/-- Claim C2 witness: after the admitted first call on a fresh limiter the
in-window count is within the limit `2`. -/
theorem c2_witness :
    (((RateLimiter.init.is_allowed "1.2.3.4" "/events" 2 10 0).snd.requests
      (mkKey "1.2.3.4" "/events")).countP
      (fun t => decide ((0 : ℤ) - ((10 : ℤ) : ℤ) < t)) : ℤ) ≤ 2 :=
  c2_hard_ceiling RateLimiter.init "1.2.3.4" "/events" 2 10 0 (by rfl)

/-- Claim C3: `validate_request` applies its checks in the fixed order
blocked-IP, rate limit, authentication, payload size, and short-circuits on the
first failing check, returning that check's denial message: a blocked IP is
denied with the state untouched whatever the other inputs; a rate-limit denial
answers regardless of the credential and size headers; an auth denial answers
regardless of the size check; only when auth passes does the size check decide
between its denial and admission. -/
theorem c3_evaluation_order (st : RateLimiter) (req : Request) (now : ℤ) :
    (st.is_ip_blocked req.client_ip = true →
      validate_request st req now = (Except.ok (false, some "IP address is blocked"), st)) ∧
    (st.is_ip_blocked req.client_ip = false →
      (rate_step st req now).fst = false →
      validate_request st req now =
        (Except.ok (false, some "Rate limit exceeded"),
          ((rate_step st req now).snd).block_ip req.client_ip 60)) ∧
    (∀ msg, st.is_ip_blocked req.client_ip = false →
      (rate_step st req now).fst = true →
      auth_check req = some msg →
      validate_request st req now = (Except.ok (false, some msg), (rate_step st req now).snd)) ∧
    (∀ msg, st.is_ip_blocked req.client_ip = false →
      (rate_step st req now).fst = true →
      auth_check req = none →
      size_check req = Except.ok (some msg) →
      validate_request st req now = (Except.ok (false, some msg), (rate_step st req now).snd)) ∧
    (st.is_ip_blocked req.client_ip = false →
      (rate_step st req now).fst = true →
      auth_check req = none →
      size_check req = Except.ok none →
      validate_request st req now = (Except.ok (true, none), (rate_step st req now).snd)) := by
  refine ⟨?_, ?_, ?_, ?_, ?_⟩
  · intro hb
    unfold validate_request
    rw [if_pos hb]
  · intro hb hr
    unfold validate_request
    rw [if_neg (by simp [hb]), if_neg (by simp [hr])]
  · intro msg hb hr ha
    unfold validate_request
    rw [if_neg (by simp [hb]), if_pos hr]
    unfold post_rate
    rw [ha]
  · intro msg hb hr ha hs
    unfold validate_request
    rw [if_neg (by simp [hb]), if_pos hr]
    unfold post_rate
    rw [ha, hs]
  · intro hb hr ha hs
    unfold validate_request
    rw [if_neg (by simp [hb]), if_pos hr]
    unfold post_rate
    rw [ha, hs]

/-- Claim C3 witness: on a fresh limiter, a credential-less request to the
auth-required route `/events` passes the rate-limit step and is denied at the
authentication check. -/
theorem c3_witness :
    validate_request RateLimiter.init
      { client_ip := "1.1.1.1", path := "/events", method := "POST",
        x_api_key := none, authorization := none, content_length := none } 5 =
      (Except.ok (false, some "API key required"),
        (rate_step RateLimiter.init
          { client_ip := "1.1.1.1", path := "/events", method := "POST",
            x_api_key := none, authorization := none, content_length := none } 5).snd) :=
  (c3_evaluation_order RateLimiter.init
    { client_ip := "1.1.1.1", path := "/events", method := "POST",
      x_api_key := none, authorization := none, content_length := none } 5).2.2.1
    "API key required" (by rfl) (by rfl) (by rfl)

/-- Claim C4: on a route with a configured rate limit, a sliding-window denial
makes `validate_request` call `block_ip(client_ip, 60)` on the state the denial
left and answer the rate-limited denial, so the identity is blocked afterwards. -/
theorem c4_rate_limit_denial_escalates_to_block
    (st : RateLimiter) (req : Request) (now : ℤ) (cfg : RateLimitConfig)
    (hnb : st.is_ip_blocked req.client_ip = false)
    (hcfg : policy_rate_limits req.path = some cfg)
    (hdeny : (st.is_allowed req.client_ip req.path cfg.limit cfg.window now).fst = false) :
    validate_request st req now =
      (Except.ok (false, some "Rate limit exceeded"),
        ((st.is_allowed req.client_ip req.path cfg.limit cfg.window now).snd).block_ip
          req.client_ip 60) ∧
    (validate_request st req now).snd.is_ip_blocked req.client_ip = true := by
  have hrs : rate_step st req now =
      st.is_allowed req.client_ip req.path cfg.limit cfg.window now := by
    unfold rate_step
    rw [hcfg]
  have h1 : validate_request st req now =
      (Except.ok (false, some "Rate limit exceeded"),
        ((st.is_allowed req.client_ip req.path cfg.limit cfg.window now).snd).block_ip
          req.client_ip 60) := by
    unfold validate_request
    rw [if_neg (by simp [hnb]), hrs, if_neg (by simp [hdeny])]
  refine ⟨h1, ?_⟩
  rw [h1]
  unfold RateLimiter.block_ip RateLimiter.is_ip_blocked
  simp

/-- Claim C4 witness: an eleventh request inside the window on
`/events/batch` (limit 10) is denied and leaves the identity blocked. -/
theorem c4_witness :
    (validate_request exhaustedBatchState
      { client_ip := "1.2.3.4", path := "/events/batch", method := "POST",
        x_api_key := none, authorization := none, content_length := none } 0).snd.is_ip_blocked
      "1.2.3.4" = true :=
  (c4_rate_limit_denial_escalates_to_block exhaustedBatchState
    { client_ip := "1.2.3.4", path := "/events/batch", method := "POST",
      x_api_key := none, authorization := none, content_length := none } 0
    ⟨10, 60, some 5⟩ (by rfl) (by rfl) (by rfl)).2

/-- Claim C5 (code evaluation): `block_ip` never records the duration — the
state after blocking with any duration equals the state after blocking with any
other, and `is_ip_blocked`, which takes no time argument at all, answers `true`
from the moment of the block on; no elapse of the duration can ever make it
`false`. -/
theorem c5_block_has_no_expiry (rl : RateLimiter) (ip : String) (d d' : ℤ) :
    (rl.block_ip ip d).is_ip_blocked ip = true ∧ rl.block_ip ip d = rl.block_ip ip d' := by
  constructor
  · unfold RateLimiter.block_ip RateLimiter.is_ip_blocked
    simp
  · rfl

/-- Claim C6: a currently blocked identity is denied with the blocked reason on
every route and with any credential, and the state is returned untouched — the
rate limiter is not consulted and nothing is recorded. -/
theorem c6_blocked_identity_denied_unconditionally
    (st : RateLimiter) (req : Request) (now : ℤ)
    (hb : st.is_ip_blocked req.client_ip = true) :
    validate_request st req now = (Except.ok (false, some "IP address is blocked"), st) := by
  unfold validate_request
  rw [if_pos hb]

/-- Claim C6 witness: a blocked identity presenting a valid credential on a
route with no configured rate limit is still denied with the blocked reason and
the state unchanged. -/
theorem c6_witness :
    validate_request blockedState
      { client_ip := "1.2.3.4", path := "/other", method := "GET",
        x_api_key := some "monitoring-key-456", authorization := none,
        content_length := none } 0 =
      (Except.ok (false, some "IP address is blocked"), blockedState) :=
  c6_blocked_identity_denied_unconditionally blockedState
    { client_ip := "1.2.3.4", path := "/other", method := "GET",
      x_api_key := some "monitoring-key-456", authorization := none,
      content_length := none } 0 (by rfl)

/-- Claim C7: for a pair whose configured window limit has been exhausted, once
every recorded timestamp is older than `now - window` (at least `window`
seconds passed with no new calls) and the identity has no active block, the
next `is_allowed` call admits. -/
theorem c7_window_elapse_resets
    (st : RateLimiter) (identity path : String) (cfg : RateLimitConfig) (now : ℤ)
    (hnb : st.is_ip_blocked identity = false)
    (hcfg : policy_rate_limits path = some cfg)
    (hexh : cfg.limit ≤ ((st.requests (mkKey identity path)).length : ℤ))
    (hold : ∀ t ∈ st.requests (mkKey identity path), t < now - (cfg.window : ℤ)) :
    (st.is_allowed identity path cfg.limit cfg.window now).fst = true := by
  have hpos := policy_rate_limits_pos path cfg hcfg
  unfold RateLimiter.is_allowed
  rw [dropWhile_eq_nil_of_all _ fun t ht => decide_eq_true (hold t ht)]
  rw [if_neg (by simp only [List.length_nil, Nat.cast_zero]; omega)]

/-- Claim C7 witness: the exhausted `/events/batch` pair (ten timestamps at
time 0, limit 10, window 60) admits again at time 100. -/
theorem c7_witness :
    (exhaustedBatchState.is_allowed "1.2.3.4" "/events/batch"
      (RateLimitConfig.mk 10 60 (some 5)).limit (RateLimitConfig.mk 10 60 (some 5)).window
      100).fst = true :=
  c7_window_elapse_resets exhaustedBatchState "1.2.3.4" "/events/batch"
    ⟨10, 60, some 5⟩ 100 (by rfl) (by rfl) (of_decide_eq_true (by rfl))
    (of_decide_eq_true (by rfl))

/-- Claim C8 (code evaluation): an authenticated request to `/events` whose
content-length header is the non-numeric string `"abc"` makes
`validate_request` raise (`int(content_length)` fails) instead of returning a
denial reason. -/
theorem c8_malformed_content_length_raises :
    (validate_request RateLimiter.init
      { client_ip := "9.9.9.9", path := "/events", method := "POST",
        x_api_key := some "dev-api-key-123", authorization := none,
        content_length := some "abc" } 0).fst = Except.error () := by
  rfl

/-- Claim C9: every denial message produced by `validate_request` is mapped by
the boundary status rule to 429 exactly when it is the rate-limited denial, and
to 401 (the unauthorized/forbidden class) for every other reason. -/
theorem c9_status_mapping (st : RateLimiter) (req : Request) (now : ℤ) (m : String)
    (h : (validate_request st req now).fst = Except.ok (false, some m)) :
    http_status_for m = if m = "Rate limit exceeded" then 429 else 401 := by
  rcases validate_request_deny_msgs st req now m h with hm | hm | hm | hm | hm | hm <;>
    subst hm <;> rfl

/-- Claim C9 witness: the auth-missing denial of a credential-less `/events`
request maps to 401. -/
theorem c9_witness :
    http_status_for "API key required" =
      if "API key required" = "Rate limit exceeded" then 429 else 401 :=
  c9_status_mapping RateLimiter.init
    { client_ip := "1.1.1.1", path := "/events", method := "POST",
      x_api_key := none, authorization := none, content_length := none } 5
    "API key required" (by rfl)

/-- Claim C10: when a request on a rate-limited route passes the
sliding-window check, the recorded timestamp survives whatever the later checks
decide — the final state's log for the pair is the evicted log with `now`
appended, for every credential and content-length header, so a later denial
still consumes one slot of the window. -/
theorem c10_denied_request_still_consumes_window_slot
    (st : RateLimiter) (req : Request) (now : ℤ) (cfg : RateLimitConfig)
    (hnb : st.is_ip_blocked req.client_ip = false)
    (hcfg : policy_rate_limits req.path = some cfg)
    (hallow : (st.is_allowed req.client_ip req.path cfg.limit cfg.window now).fst = true) :
    (validate_request st req now).snd.requests (mkKey req.client_ip req.path) =
      ((st.requests (mkKey req.client_ip req.path)).dropWhile
        (fun t => decide (t < now - (cfg.window : ℤ)))) ++ [now] := by
  have hrs : rate_step st req now =
      st.is_allowed req.client_ip req.path cfg.limit cfg.window now := by
    unfold rate_step
    rw [hcfg]
  unfold validate_request
  rw [if_neg (by simp [hnb]), hrs, if_pos hallow, post_rate_snd]
  unfold RateLimiter.is_allowed at hallow ⊢
  by_cases hc : cfg.limit ≤ (((st.requests (mkKey req.client_ip req.path)).dropWhile
      (fun t => decide (t < now - (cfg.window : ℤ)))).length : ℤ)
  · rw [if_pos hc] at hallow
    simp at hallow
  · rw [if_neg hc]
    exact updateRequests_self _ _ _

/-- Claim C10 witness: a credential-less `/events` request is denied at the
auth step, yet its call time `5` is recorded in the pair's window log. -/
theorem c10_witness :
    (validate_request RateLimiter.init
      { client_ip := "1.1.1.1", path := "/events", method := "POST",
        x_api_key := none, authorization := none, content_length := none } 5).snd.requests
      (mkKey "1.1.1.1" "/events") =
      ((RateLimiter.init.requests (mkKey "1.1.1.1" "/events")).dropWhile
        (fun t => decide (t < 5 - (((60 : ℤ)) : ℤ)))) ++ [5] :=
  c10_denied_request_still_consumes_window_slot RateLimiter.init
    { client_ip := "1.1.1.1", path := "/events", method := "POST",
      x_api_key := none, authorization := none, content_length := none } 5
    ⟨100, 60, some 20⟩ (by rfl) (by rfl) (by rfl)

end SecurityPy
